import Mathlib

/-!
Verification of the investment projection calculator.

The repository consists of two Streamlit scripts, `investment_calc.py` and
`investment_calc_branded_v2.py`, whose shared computational core is a
month-by-month compounding loop over 30 years (360 months).  We embed the
arithmetic of that loop over the exact reals (the floats of the source are
idealised as real numbers) and prove the stated properties.
-/

set_option maxRecDepth 20000

namespace InvestCalc

/-- The loop state of the projection loop in `investment_calc.py`
(lines 40-42): `current_balance`, `current_monthly_installment`,
`total_capital`. -/
structure ProjState where
  balance : ℝ
  installment : ℝ
  capital : ℝ

/-- One yearly snapshot row appended to `data` (lines 60-66 of
`investment_calc.py`): Year, Total Amount, Monthly Installment,
Total Capital Contributed, Investment Return. -/
structure Snapshot where
  year : ℕ
  totalAmount : ℝ
  monthlyInstallment : ℝ
  totalCapitalContributed : ℝ
  investmentReturn : ℝ

instance : Inhabited Snapshot := ⟨⟨0, 0, 0, 0, 0⟩⟩

/-- `monthly_return = (1 + annual_return) ** (1/12) - 1`
(line 53 of `investment_calc.py`): the geometric monthly rate. -/
noncomputable def monthlyReturn (annualReturn : ℝ) : ℝ :=
  (1 + annualReturn) ^ ((1 : ℝ) / 12) - 1

/-- The body of the projection loop for month `m`
(lines 44-56 of `investment_calc.py`): escalate the installment when
`m > 1 and (m - 1) % 12 == 0`, add the installment to the capital tracker,
and compound the balance by the geometric monthly rate. -/
noncomputable def stepMonth (escalationRate annualReturn : ℝ) (m : ℕ)
    (s : ProjState) : ProjState :=
  let inst := if 1 < m ∧ (m - 1) % 12 = 0
    then s.installment * (1 + escalationRate) else s.installment
  let capital := s.capital + inst
  let mr := monthlyReturn annualReturn
  let balance := (s.balance + inst) * (1 + mr)
  { balance := balance, installment := inst, capital := capital }

/-- Initial loop state (lines 40-42 of `investment_calc.py`):
`current_balance = initial_investment`,
`current_monthly_installment = monthly_step`,
`total_capital = initial_investment`. -/
def initState (initialInvestment monthlyStep : ℝ) : ProjState :=
  { balance := initialInvestment, installment := monthlyStep,
    capital := initialInvestment }

/-- The loop state after the first `m` months have been processed. -/
noncomputable def stateAfter (escalationRate annualReturn
    initialInvestment monthlyStep : ℝ) : ℕ → ProjState
  | 0 => initState initialInvestment monthlyStep
  | m + 1 => stepMonth escalationRate annualReturn (m + 1)
      (stateAfter escalationRate annualReturn initialInvestment monthlyStep m)

/-- The snapshot appended at month `m` (lines 59-66 of
`investment_calc.py`): `Year = m // 12`, with the current balance,
installment and capital, and `Investment Return = balance - capital`. -/
def snapshotOf (m : ℕ) (s : ProjState) : Snapshot :=
  { year := m / 12
    totalAmount := s.balance
    monthlyInstallment := s.installment
    totalCapitalContributed := s.capital
    investmentReturn := s.balance - s.capital }

/-- `months = 30 * 12` (line 37 of `investment_calc.py`). -/
def months : ℕ := 30 * 12

/-- The month indices traversed by `for m in range(1, months + 1)`
(line 44 of `investment_calc.py`): the list `[1, 2, ..., 360]`. -/
def loopMonths : List ℕ := (List.range months).map (· + 1)

/-- The projection loop (lines 44-66 of `investment_calc.py`): process the
months in order, threading the state, and append a snapshot whenever
`m % 12 == 0`. -/
noncomputable def projLoop (escalationRate annualReturn : ℝ) :
    List ℕ → ProjState → List Snapshot
  | [], _ => []
  | m :: rest, s =>
    let s' := stepMonth escalationRate annualReturn m s
    (if m % 12 = 0 then [snapshotOf m s'] else []) ++
      projLoop escalationRate annualReturn rest s'

/-- The list `data` of yearly snapshots produced by the projection
(lines 37-66 of `investment_calc.py`). -/
noncomputable def projectionData (escalationRate annualReturn
    initialInvestment monthlyStep : ℝ) : List Snapshot :=
  projLoop escalationRate annualReturn loopMonths
    (initState initialInvestment monthlyStep)

/-- `milestones = [1, 3, 5, 10, 20, 30]` (line 72 of `investment_calc.py`). -/
def milestones : List ℕ := [1, 3, 5, 10, 20, 30]

/-- `milestone_df = df[df['Year'].isin(milestones)]` (line 73 of
`investment_calc.py`): the snapshots whose Year is a milestone year, in
the order of `data`. -/
noncomputable def milestoneDf (escalationRate annualReturn
    initialInvestment monthlyStep : ℝ) : List Snapshot :=
  (projectionData escalationRate annualReturn initialInvestment
    monthlyStep).filter (fun s => s.year ∈ milestones)

/-- The branch on the Calculate button (lines 33-35 of
`investment_calc.py`): if `initial_investment == 0 and monthly_step == 0`
a warning is shown and nothing is computed (`none`), otherwise the full
projection is produced (`some data`). -/
noncomputable def runCalculation (escalationRate annualReturn
    initialInvestment monthlyStep : ℝ) : Option (List Snapshot) :=
  if initialInvestment = 0 ∧ monthlyStep = 0 then none
  else some (projectionData escalationRate annualReturn initialInvestment
    monthlyStep)

/-! ### The rebranded copy `investment_calc_branded_v2.py`

Independent transcription of the calculation logic of
`investment_calc_branded_v2.py` (lines 106-146), kept separate so that the
equivalence of the two files is a theorem rather than a definition. -/

/-- `monthly_return = (1 + annual_return) ** (1/12) - 1`
(line 126 of `investment_calc_branded_v2.py`). -/
noncomputable def monthlyReturnV2 (annualReturn : ℝ) : ℝ :=
  (1 + annualReturn) ^ ((1 : ℝ) / 12) - 1

/-- The loop body of `investment_calc_branded_v2.py` (lines 117-129). -/
noncomputable def stepMonthV2 (escalationRate annualReturn : ℝ) (m : ℕ)
    (s : ProjState) : ProjState :=
  let inst := if 1 < m ∧ (m - 1) % 12 = 0
    then s.installment * (1 + escalationRate) else s.installment
  let capital := s.capital + inst
  let mr := monthlyReturnV2 annualReturn
  let balance := (s.balance + inst) * (1 + mr)
  { balance := balance, installment := inst, capital := capital }

/-- The projection loop of `investment_calc_branded_v2.py` (lines 117-139). -/
noncomputable def projLoopV2 (escalationRate annualReturn : ℝ) :
    List ℕ → ProjState → List Snapshot
  | [], _ => []
  | m :: rest, s =>
    let s' := stepMonthV2 escalationRate annualReturn m s
    (if m % 12 = 0 then [snapshotOf m s'] else []) ++
      projLoopV2 escalationRate annualReturn rest s'

/-- The snapshot list `data` of `investment_calc_branded_v2.py`
(lines 110-139): `months = 30 * 12`, same initial state, same loop. -/
noncomputable def projectionDataV2 (escalationRate annualReturn
    initialInvestment monthlyStep : ℝ) : List Snapshot :=
  projLoopV2 escalationRate annualReturn ((List.range (30 * 12)).map (· + 1))
    { balance := initialInvestment, installment := monthlyStep,
      capital := initialInvestment }

/-! ### Characterisation of the projection loop -/

theorem stateAfter_succ (e a i mo : ℝ) (m : ℕ) :
    stateAfter e a i mo (m + 1)
      = stepMonth e a (m + 1) (stateAfter e a i mo m) := rfl

/-- Running the loop over the consecutive months `k+1, …, k+n` starting from
the state after `k` months produces exactly the snapshots of the months
divisible by 12, each taken at the state after that month. -/
theorem projLoop_range' (e a i mo : ℝ) :
    ∀ n k : ℕ,
      projLoop e a (List.range' (k + 1) n) (stateAfter e a i mo k)
        = (List.range' (k + 1) n).filterMap (fun m =>
            if m % 12 = 0 then some (snapshotOf m (stateAfter e a i mo m))
            else none) := by
  intro n
  induction n with
  | zero => intro k; rfl
  | succ n ih =>
    intro k
    rw [List.range'_succ]
    show (if (k + 1) % 12 = 0 then
        [snapshotOf (k + 1) (stepMonth e a (k + 1) (stateAfter e a i mo k))]
      else []) ++
        projLoop e a (List.range' (k + 1 + 1) n)
          (stepMonth e a (k + 1) (stateAfter e a i mo k)) = _
    rw [show stepMonth e a (k + 1) (stateAfter e a i mo k)
          = stateAfter e a i mo (k + 1) from rfl, ih (k + 1),
      List.filterMap_cons]
    split <;> simp

/-- `data` is the filterMap over the 360 processed months. -/
theorem projectionData_eq_filterMap (e a i mo : ℝ) :
    projectionData e a i mo
      = loopMonths.filterMap (fun m =>
          if m % 12 = 0 then some (snapshotOf m (stateAfter e a i mo m))
          else none) := by
  have hlm : loopMonths = List.range' 1 360 := by decide
  rw [projectionData, hlm]
  exact projLoop_range' e a i mo 360 0

/-- The Year column of `data` is `[1, 2, …, 30]`. -/
theorem projectionData_years (e a i mo : ℝ) :
    (projectionData e a i mo).map Snapshot.year
      = (List.range 30).map (· + 1) := by
  rw [projectionData_eq_filterMap, List.map_filterMap]
  have hf : (fun m => (if m % 12 = 0
        then some (snapshotOf m (stateAfter e a i mo m))
        else none).map Snapshot.year)
      = (fun m : ℕ => if m % 12 = 0 then some (m / 12) else none) := by
    funext m
    split <;> rfl
  rw [hf]
  decide

/-- Every element of `data` is the snapshot of a month divisible by 12,
taken at the state after that month. -/
theorem mem_projectionData (e a i mo : ℝ) {s : Snapshot}
    (hs : s ∈ projectionData e a i mo) :
    ∃ m, m ∈ loopMonths ∧ m % 12 = 0
      ∧ s = snapshotOf m (stateAfter e a i mo m) := by
  rw [projectionData_eq_filterMap] at hs
  rcases List.mem_filterMap.mp hs with ⟨m, hm, hsome⟩
  refine ⟨m, hm, ?_, ?_⟩
  · by_contra hne
    rw [if_neg hne] at hsome
    exact Option.noConfusion hsome
  · rcases Nat.decEq (m % 12) 0 with h | h
    · rw [if_neg h] at hsome
      exact absurd hsome (by simp)
    · rw [if_pos h] at hsome
      exact (Option.some.inj hsome).symm

/-- If each element of a list is determined by its image, the list is the
map of its image list. -/
theorem list_eq_map_of_map_eq {α β : Type} {l : List α} {ys : List β}
    (g : α → β) (F : β → α) (h1 : l.map g = ys)
    (h2 : ∀ s ∈ l, s = F (g s)) : l = ys.map F := by
  subst h1
  induction l with
  | nil => rfl
  | cons x xs ih =>
    rw [List.map_cons, List.map_cons]
    rw [← h2 x (List.mem_cons_self x xs)]
    rw [← ih (fun s hs => h2 s (List.mem_cons_of_mem x hs))]

/-- `data` listed explicitly: the snapshot for year `y` is taken at month
`12 * y`, for `y = 1, …, 30`. -/
theorem projectionData_eq_map (e a i mo : ℝ) :
    projectionData e a i mo
      = ((List.range 30).map (· + 1)).map (fun y =>
          snapshotOf (12 * y) (stateAfter e a i mo (12 * y))) := by
  refine list_eq_map_of_map_eq Snapshot.year _ (projectionData_years e a i mo)
    (fun s hs => ?_)
  rcases mem_projectionData e a i mo hs with ⟨m, _, hmod, hsnap⟩
  have hyear : s.year = m / 12 := by rw [hsnap]; rfl
  have hm12 : 12 * s.year = m := by rw [hyear]; omega
  rw [hm12, ← hsnap]

/-! ### Field lemmas for one loop iteration -/

theorem stepMonth_installment (e a : ℝ) (m : ℕ) (s : ProjState) :
    (stepMonth e a m s).installment
      = if 1 < m ∧ (m - 1) % 12 = 0 then s.installment * (1 + e)
        else s.installment := rfl

theorem stepMonth_capital (e a : ℝ) (m : ℕ) (s : ProjState) :
    (stepMonth e a m s).capital
      = s.capital + (stepMonth e a m s).installment := rfl

theorem stepMonth_balance (e a : ℝ) (m : ℕ) (s : ProjState) :
    (stepMonth e a m s).balance
      = (s.balance + (stepMonth e a m s).installment)
          * (1 + monthlyReturn a) := rfl

/-! ### Invariants of the loop state -/

theorem monthlyReturn_nonneg {a : ℝ} (ha : 0 ≤ a) : 0 ≤ monthlyReturn a := by
  have h1 : ((1:ℝ)) ^ ((1:ℝ)/12) ≤ (1 + a) ^ ((1:ℝ)/12) :=
    Real.rpow_le_rpow (by norm_num) (by linarith) (by norm_num)
  rw [Real.one_rpow] at h1
  simp only [monthlyReturn]
  linarith

theorem installment_nonneg (e a i mo : ℝ) (he : 0 ≤ e) (hmo : 0 ≤ mo)
    (m : ℕ) : 0 ≤ (stateAfter e a i mo m).installment := by
  induction m with
  | zero => exact hmo
  | succ n ih =>
    rw [stateAfter_succ, stepMonth_installment]
    split
    · exact mul_nonneg ih (by linarith)
    · exact ih

theorem capital_nonneg (e a i mo : ℝ) (he : 0 ≤ e) (hi : 0 ≤ i)
    (hmo : 0 ≤ mo) (m : ℕ) : 0 ≤ (stateAfter e a i mo m).capital := by
  induction m with
  | zero => exact hi
  | succ n ih =>
    rw [stateAfter_succ, stepMonth_capital]
    have := installment_nonneg e a i mo he hmo (n + 1)
    rw [stateAfter_succ] at this
    linarith

theorem capital_mono (e a i mo : ℝ) (he : 0 ≤ e) (hmo : 0 ≤ mo) :
    Monotone (fun m => (stateAfter e a i mo m).capital) := by
  apply monotone_nat_of_le_succ
  intro n
  show (stateAfter e a i mo n).capital ≤ (stateAfter e a i mo (n + 1)).capital
  rw [stateAfter_succ, stepMonth_capital]
  have := installment_nonneg e a i mo he hmo (n + 1)
  rw [stateAfter_succ] at this
  linarith

theorem capital_le_balance (e a i mo : ℝ) (he : 0 ≤ e) (ha : 0 ≤ a)
    (hi : 0 ≤ i) (hmo : 0 ≤ mo) (m : ℕ) :
    (stateAfter e a i mo m).capital ≤ (stateAfter e a i mo m).balance := by
  induction m with
  | zero => exact le_refl i
  | succ n ih =>
    have hinst : 0 ≤ (stateAfter e a i mo (n + 1)).installment :=
      installment_nonneg e a i mo he hmo (n + 1)
    have hcap : 0 ≤ (stateAfter e a i mo n).capital :=
      capital_nonneg e a i mo he hi hmo n
    rw [stateAfter_succ] at hinst
    rw [stateAfter_succ, stepMonth_capital, stepMonth_balance]
    have hsum : 0 ≤ (stateAfter e a i mo n).balance
        + (stepMonth e a (n + 1) (stateAfter e a i mo n)).installment := by
      linarith
    have hgrow := le_mul_of_one_le_right hsum
      (by have := monthlyReturn_nonneg ha; linarith :
        (1:ℝ) ≤ 1 + monthlyReturn a)
    linarith

/-! ### Equivalence of the two files -/

theorem stepMonthV2_eq (e a : ℝ) (m : ℕ) (s : ProjState) :
    stepMonthV2 e a m s = stepMonth e a m s := rfl

theorem projLoopV2_eq (e a : ℝ) :
    ∀ (ms : List ℕ) (s : ProjState),
      projLoopV2 e a ms s = projLoop e a ms s := by
  intro ms
  induction ms with
  | nil => intro s; rfl
  | cons m rest ih =>
    intro s
    show (if m % 12 = 0 then [snapshotOf m (stepMonthV2 e a m s)] else [])
        ++ projLoopV2 e a rest (stepMonthV2 e a m s) = _
    rw [stepMonthV2_eq, ih]
    rfl

theorem projectionData_length (e a i mo : ℝ) :
    (projectionData e a i mo).length = 30 := by
  have h := congrArg List.length (projectionData_years e a i mo)
  simpa using h

/-- Closed form for the installment: after `m + 1` months the installment
has been escalated once per completed 12-month block. -/
theorem installment_closed (e a i mo : ℝ) :
    ∀ m : ℕ,
      (stateAfter e a i mo (m + 1)).installment = mo * (1 + e) ^ (m / 12) := by
  intro m
  induction m with
  | zero =>
    rw [stateAfter_succ, stepMonth_installment]
    simp [stateAfter, initState]
  | succ n ih =>
    rw [stateAfter_succ, stepMonth_installment, ih]
    by_cases hc : (n + 1) % 12 = 0
    · rw [if_pos ⟨by omega, by omega⟩]
      have hdiv : (n + 1) / 12 = n / 12 + 1 := by omega
      rw [hdiv, pow_succ]
      ring
    · rw [if_neg (fun h => hc (by omega))]
      have hdiv : (n + 1) / 12 = n / 12 := by omega
      rw [hdiv]

/-- With zero escalation the installment never changes. -/
theorem installment_esc_zero (a i mo : ℝ) (m : ℕ) :
    (stateAfter 0 a i mo m).installment = mo := by
  cases m with
  | zero => rfl
  | succ n => rw [installment_closed]; norm_num

/-- With zero escalation the balance is the initial investment compounded
`m` times plus each installment compounded once per month it has been in
the account. -/
theorem balance_esc_zero (a i mo : ℝ) (m : ℕ) :
    (stateAfter 0 a i mo m).balance
      = i * (1 + monthlyReturn a) ^ m
        + mo * ∑ k ∈ Finset.range m, (1 + monthlyReturn a) ^ (k + 1) := by
  induction m with
  | zero => simp [stateAfter, initState]
  | succ n ih =>
    rw [stateAfter_succ, stepMonth_balance, ← stateAfter_succ,
      installment_esc_zero, ih, Finset.sum_range_succ']
    have hS : (∑ k ∈ Finset.range n, (1 + monthlyReturn a) ^ (k + 1 + 1))
        = (∑ k ∈ Finset.range n, (1 + monthlyReturn a) ^ (k + 1))
            * (1 + monthlyReturn a) := by
      rw [Finset.sum_mul]
      exact Finset.sum_congr rfl (fun k _ => pow_succ _ _)
    rw [hS, pow_succ]
    ring

/-! ### The claims -/

/-- C1: for every month `m` in 1..360, the balance after month `m` equals
the balance after month `m - 1` plus the current installment for month
`m`, multiplied by `1 + r`, where `r = (1 + annual_return)^(1/12) - 1` is
the geometric monthly rate; before month 1 the balance is the initial
investment. -/
theorem c1_balance_recurrence (e a i mo : ℝ) (m : ℕ) (h1 : 1 ≤ m)
    (h2 : m ≤ 360) :
    (stateAfter e a i mo 0).balance = i ∧
    (stateAfter e a i mo m).balance
      = ((stateAfter e a i mo (m - 1)).balance
          + (stateAfter e a i mo m).installment) * (1 + monthlyReturn a) ∧
    monthlyReturn a = (1 + a) ^ ((1 : ℝ) / 12) - 1 := by
  refine ⟨rfl, ?_, rfl⟩
  obtain ⟨n, rfl⟩ : ∃ n, m = n + 1 := ⟨m - 1, by omega⟩
  rw [Nat.add_sub_cancel, stateAfter_succ, stepMonth_balance]

theorem c1_balance_recurrence_witness :
    (stateAfter 0 0.06 0 1000 0).balance = 0 ∧
    (stateAfter 0 0.06 0 1000 1).balance
      = ((stateAfter 0 0.06 0 1000 0).balance
          + (stateAfter 0 0.06 0 1000 1).installment)
            * (1 + monthlyReturn 0.06) ∧
    monthlyReturn 0.06 = (1 + 0.06) ^ ((1 : ℝ) / 12) - 1 :=
  c1_balance_recurrence 0 0.06 0 1000 1 (by norm_num) (by norm_num)

/-- C2: for every month `m` in 1..360, the installment used in month `m`
is the starting installment escalated once per completed 12-month block
(`mo * (1 + esc) ^ ((m - 1) / 12)`); it is multiplied by the escalation
factor exactly at the months `m > 1` with `(m - 1) % 12 = 0`
(13, 25, 37, …) and is unchanged in all other months. -/
theorem c2_escalation (e a i mo : ℝ) (m : ℕ) (h1 : 1 ≤ m) (h2 : m ≤ 360) :
    (stateAfter e a i mo m).installment = mo * (1 + e) ^ ((m - 1) / 12) ∧
    (stateAfter e a i mo m).installment
      = (if 1 < m ∧ (m - 1) % 12 = 0
         then (stateAfter e a i mo (m - 1)).installment * (1 + e)
         else (stateAfter e a i mo (m - 1)).installment) := by
  obtain ⟨n, rfl⟩ : ∃ n, m = n + 1 := ⟨m - 1, by omega⟩
  rw [Nat.add_sub_cancel]
  exact ⟨installment_closed e a i mo n,
    by rw [stateAfter_succ, stepMonth_installment, Nat.add_sub_cancel]⟩

theorem c2_escalation_witness :
    ((stateAfter 0.06 0.06 0 1000 13).installment
        = 1000 * (1 + 0.06) ^ ((13 - 1) / 12) ∧
      (stateAfter 0.06 0.06 0 1000 13).installment
        = (if 1 < 13 ∧ (13 - 1) % 12 = 0
           then (stateAfter 0.06 0.06 0 1000 (13 - 1)).installment * (1 + 0.06)
           else (stateAfter 0.06 0.06 0 1000 (13 - 1)).installment)) :=
  c2_escalation 0.06 0.06 0 1000 13 (by norm_num) (by norm_num)

/-! ### The year-1 total for the spec's worked example
(initial 0, monthly 1000, escalation 0%, rate 6%). -/

/-- The monthly growth factor for the 6% profile, `1.06 ^ (1/12)`. -/
noncomputable def yearOneFactor : ℝ := (1.06 : ℝ) ^ ((1 : ℝ) / 12)

theorem yearOneFactor_nonneg : (0 : ℝ) ≤ yearOneFactor :=
  Real.rpow_nonneg (by norm_num) _

theorem yearOneFactor_pow12 : yearOneFactor ^ (12 : ℕ) = 1.06 := by
  rw [yearOneFactor, ← Real.rpow_natCast ((1.06 : ℝ) ^ ((1 : ℝ) / 12)) 12,
    ← Real.rpow_mul (by norm_num)]
  norm_num

theorem yearOneFactor_gt : (1.00486755 : ℝ) < yearOneFactor := by
  apply lt_of_pow_lt_pow_left₀ 12 yearOneFactor_nonneg
  rw [yearOneFactor_pow12]
  norm_num

theorem yearOneFactor_lt : yearOneFactor < 1.00486756 := by
  apply lt_of_pow_lt_pow_left₀ 12 (by norm_num)
  rw [yearOneFactor_pow12]
  norm_num

theorem yearOneBalance_bounds :
    12386.52 < (stateAfter 0 0.06 0 1000 12).balance ∧
    (stateAfter 0 0.06 0 1000 12).balance < 12386.54 := by
  have hg : (1 : ℝ) + monthlyReturn 0.06 = yearOneFactor := by
    rw [monthlyReturn, yearOneFactor]; norm_num
  have hB : (stateAfter 0 0.06 0 1000 12).balance
      = 1000 * ∑ k ∈ Finset.range 12, yearOneFactor ^ (k + 1) := by
    rw [balance_esc_zero, hg]; ring
  have hsum : ∑ k ∈ Finset.range 12, yearOneFactor ^ (k + 1)
      = yearOneFactor + yearOneFactor ^ 2 + yearOneFactor ^ 3
        + yearOneFactor ^ 4 + yearOneFactor ^ 5 + yearOneFactor ^ 6
        + yearOneFactor ^ 7 + yearOneFactor ^ 8 + yearOneFactor ^ 9
        + yearOneFactor ^ 10 + yearOneFactor ^ 11 + yearOneFactor ^ 12 := by
    simp [Finset.sum_range_succ]
  rw [hB, hsum]
  constructor
  · have h : ((1.00486755 : ℝ) + 1.00486755 ^ 2 + 1.00486755 ^ 3
        + 1.00486755 ^ 4 + 1.00486755 ^ 5 + 1.00486755 ^ 6 + 1.00486755 ^ 7
        + 1.00486755 ^ 8 + 1.00486755 ^ 9 + 1.00486755 ^ 10
        + 1.00486755 ^ 11 + 1.00486755 ^ 12)
        ≤ yearOneFactor + yearOneFactor ^ 2 + yearOneFactor ^ 3
          + yearOneFactor ^ 4 + yearOneFactor ^ 5 + yearOneFactor ^ 6
          + yearOneFactor ^ 7 + yearOneFactor ^ 8 + yearOneFactor ^ 9
          + yearOneFactor ^ 10 + yearOneFactor ^ 11 + yearOneFactor ^ 12 := by
      gcongr <;> first | exact yearOneFactor_nonneg | linarith [yearOneFactor_gt]
    nlinarith [h]
  · have h : (yearOneFactor + yearOneFactor ^ 2 + yearOneFactor ^ 3
        + yearOneFactor ^ 4 + yearOneFactor ^ 5 + yearOneFactor ^ 6
        + yearOneFactor ^ 7 + yearOneFactor ^ 8 + yearOneFactor ^ 9
        + yearOneFactor ^ 10 + yearOneFactor ^ 11 + yearOneFactor ^ 12)
        ≤ ((1.00486756 : ℝ) + 1.00486756 ^ 2 + 1.00486756 ^ 3
          + 1.00486756 ^ 4 + 1.00486756 ^ 5 + 1.00486756 ^ 6 + 1.00486756 ^ 7
          + 1.00486756 ^ 8 + 1.00486756 ^ 9 + 1.00486756 ^ 10
          + 1.00486756 ^ 11 + 1.00486756 ^ 12) := by
      gcongr <;> first | exact yearOneFactor_nonneg | exact yearOneFactor_lt.le
    nlinarith [h]

/-- The first snapshot of the example projection is the year-1 snapshot,
taken at the state after month 12. -/
theorem projectionData_example_headI :
    (projectionData 0 0.06 0 1000).headI
      = snapshotOf 12 (stateAfter 0 0.06 0 1000 12) := by
  rw [projectionData_eq_map]
  rfl

/-- C3 as stated is false: for initial 0, monthly 1000, escalation 0%,
rate 6%, the year-1 total produced by the code is more than 1 away from
the claimed 12,335.56 (it is about 12,386.53). -/
theorem c3_counterexample :
    (projectionData 0 0.06 0 1000).headI.year = 1 ∧
    1 < |(projectionData 0 0.06 0 1000).headI.totalAmount - 12335.56| := by
  rw [projectionData_example_headI]
  refine ⟨rfl, ?_⟩
  have h2 : (snapshotOf 12 (stateAfter 0 0.06 0 1000 12)).totalAmount
      = (stateAfter 0 0.06 0 1000 12).balance := rfl
  rw [h2]
  have hb := yearOneBalance_bounds
  rw [abs_of_pos (by linarith [hb.1] :
    (0 : ℝ) < (stateAfter 0 0.06 0 1000 12).balance - 12335.56)]
  linarith [hb.1]

/-- C3, amended: for initial 0, monthly 1000, escalation 0%, rate 6%, the
projection's year-1 total amount is approximately 12,386.53 (within 0.01
of that value). -/
theorem c3_amended_value :
    (projectionData 0 0.06 0 1000).headI.year = 1 ∧
    |(projectionData 0 0.06 0 1000).headI.totalAmount - 12386.53| < 0.01 := by
  rw [projectionData_example_headI]
  refine ⟨rfl, ?_⟩
  have h2 : (snapshotOf 12 (stateAfter 0 0.06 0 1000 12)).totalAmount
      = (stateAfter 0 0.06 0 1000 12).balance := rfl
  rw [h2]
  have hb := yearOneBalance_bounds
  exact abs_lt.mpr ⟨by linarith [hb.1], by linarith [hb.2]⟩

/-- C4: for every input, the projection computed by `investment_calc.py`
and the projection computed by `investment_calc_branded_v2.py` are the
same sequence of yearly snapshots, with the same Year, Total Amount,
Monthly Installment, Total Capital Contributed and Investment Return in
every entry. -/
theorem c4_rebranded_equivalence (e a i mo : ℝ) :
    projectionDataV2 e a i mo = projectionData e a i mo := by
  unfold projectionDataV2 projectionData
  rw [projLoopV2_eq]
  rfl

/-- C5: the warning is shown and the projection skipped exactly when both
the initial investment and the monthly installment are zero; for any other
admissible input the full 30-year projection (30 snapshots) is produced
and no warning is shown. -/
theorem c5_zero_validation (e a i mo : ℝ) (hi : 0 ≤ i) (hmo : 0 ≤ mo) :
    (runCalculation e a i mo = none ↔ (i = 0 ∧ mo = 0)) ∧
    (¬(i = 0 ∧ mo = 0) →
      runCalculation e a i mo = some (projectionData e a i mo) ∧
      (projectionData e a i mo).length = 30) := by
  constructor
  · unfold runCalculation
    by_cases h : i = 0 ∧ mo = 0
    · simp [h]
    · simp [h]
  · intro h
    refine ⟨?_, projectionData_length e a i mo⟩
    unfold runCalculation
    rw [if_neg h]

theorem c5_zero_validation_witness :
    ((runCalculation 0.06 0.06 0 1000 = none ↔ ((0:ℝ) = 0 ∧ (1000:ℝ) = 0)) ∧
      (¬((0:ℝ) = 0 ∧ (1000:ℝ) = 0) →
        runCalculation 0.06 0.06 0 1000
            = some (projectionData 0.06 0.06 0 1000) ∧
        (projectionData 0.06 0.06 0 1000).length = 30)) :=
  c5_zero_validation 0.06 0.06 0 1000 le_rfl (by norm_num)

/-- C6: in every snapshot produced by the projection, for every input, the
Investment Return field equals Total Amount minus Total Capital
Contributed. -/
theorem c6_return_is_difference (e a i mo : ℝ) :
    ∀ s ∈ projectionData e a i mo,
      s.investmentReturn = s.totalAmount - s.totalCapitalContributed := by
  intro s hs
  rcases mem_projectionData e a i mo hs with ⟨m, -, -, rfl⟩
  rfl

theorem c6_return_is_difference_witness :
    (snapshotOf 12 (stateAfter 0 0.06 0 1000 12)).investmentReturn
      = (snapshotOf 12 (stateAfter 0 0.06 0 1000 12)).totalAmount
        - (snapshotOf 12 (stateAfter 0 0.06 0 1000 12)).totalCapitalContributed :=
  c6_return_is_difference 0 0.06 0 1000 _
    (by rw [projectionData_eq_map]
        exact List.mem_map.mpr ⟨1, by decide, rfl⟩)

/-- C7: for every admissible input the Total Capital Contributed values
of consecutive yearly snapshots are monotonically non-decreasing. -/
theorem c7_capital_monotone (e a i mo : ℝ) (he : 0 ≤ e) (hi : 0 ≤ i)
    (hmo : 0 ≤ mo) :
    List.Chain'
      (fun s t => s.totalCapitalContributed ≤ t.totalCapitalContributed)
      (projectionData e a i mo) := by
  rw [projectionData_eq_map]
  refine (List.chain'_map _).mpr ?_
  refine (List.chain'_map _).mpr ?_
  refine (List.chain'_range_succ _ 29).mpr ?_
  intro m hm
  exact capital_mono e a i mo he hmo (by omega : 12 * (m + 1) ≤ 12 * (m + 1 + 1))

theorem c7_capital_monotone_witness :
    List.Chain'
      (fun s t => s.totalCapitalContributed ≤ t.totalCapitalContributed)
      (projectionData 0.06 0.06 0 1000) :=
  c7_capital_monotone 0.06 0.06 0 1000 (by norm_num) le_rfl (by norm_num)

/-- C8: for every admissible non-zero input, the loop iterates over
exactly 360 months and the projection has exactly 30 snapshots whose Year
fields are 1, 2, …, 30 in increasing order. -/
theorem c8_loop_shape (e a i mo : ℝ) (h : ¬(i = 0 ∧ mo = 0)) :
    loopMonths.length = 360 ∧
    runCalculation e a i mo = some (projectionData e a i mo) ∧
    (projectionData e a i mo).length = 30 ∧
    (projectionData e a i mo).map Snapshot.year
      = (List.range 30).map (· + 1) := by
  refine ⟨by decide, ?_, projectionData_length e a i mo,
    projectionData_years e a i mo⟩
  unfold runCalculation
  rw [if_neg h]

theorem c8_loop_shape_witness :
    loopMonths.length = 360 ∧
    runCalculation 0.06 0.06 0 1000 = some (projectionData 0.06 0.06 0 1000) ∧
    (projectionData 0.06 0.06 0 1000).length = 30 ∧
    (projectionData 0.06 0.06 0 1000).map Snapshot.year
      = (List.range 30).map (· + 1) :=
  c8_loop_shape 0.06 0.06 0 1000 (by norm_num)

/-- C9: the milestone summary consists of exactly the snapshots of years
1, 3, 5, 10, 20 and 30, in that order, as a subsequence of the yearly
snapshots, each reporting its year's Total Amount (the balance at month
`12 * year`). -/
theorem c9_milestone_summary (e a i mo : ℝ) :
    (milestoneDf e a i mo).map Snapshot.year = milestones ∧
    (milestoneDf e a i mo).Sublist (projectionData e a i mo) ∧
    ∀ s ∈ milestoneDf e a i mo,
      s.totalAmount = (stateAfter e a i mo (12 * s.year)).balance := by
  refine ⟨?_, List.filter_sublist _, ?_⟩
  · unfold milestoneDf
    rw [show (fun s : Snapshot => decide (s.year ∈ milestones))
        = ((fun y : ℕ => decide (y ∈ milestones)) ∘ Snapshot.year) from rfl,
      ← List.filter_map, projectionData_years]
    decide
  · intro s hs
    have hs' : s ∈ projectionData e a i mo := List.mem_of_mem_filter hs
    rcases mem_projectionData e a i mo hs' with ⟨m, -, hmod, rfl⟩
    have hyear : (snapshotOf m (stateAfter e a i mo m)).year = m / 12 := rfl
    rw [hyear, show 12 * (m / 12) = m by omega]
    rfl

theorem c9_milestone_summary_witness :
    (milestoneDf 0.06 0.06 0 1000).map Snapshot.year = milestones ∧
    (milestoneDf 0.06 0.06 0 1000).Sublist (projectionData 0.06 0.06 0 1000) ∧
    ∀ s ∈ milestoneDf 0.06 0.06 0 1000,
      s.totalAmount = (stateAfter 0.06 0.06 0 1000 (12 * s.year)).balance :=
  c9_milestone_summary 0.06 0.06 0 1000

/-- C10: for every admissible input with the annual rate one of the three
offered profiles, every snapshot has Total Amount at least Total Capital
Contributed, so the Investment Return field is never negative. -/
theorem c10_return_never_negative (e a i mo : ℝ) (he : 0 ≤ e) (hi : 0 ≤ i)
    (hmo : 0 ≤ mo) (ha : a = 0.06 ∨ a = 0.10 ∨ a = 0.13) :
    ∀ s ∈ projectionData e a i mo,
      s.totalCapitalContributed ≤ s.totalAmount ∧ 0 ≤ s.investmentReturn := by
  have ha0 : 0 ≤ a := by rcases ha with h | h | h <;> rw [h] <;> norm_num
  intro s hs
  rcases mem_projectionData e a i mo hs with ⟨m, -, -, rfl⟩
  have h := capital_le_balance e a i mo he ha0 hi hmo m
  exact ⟨h, sub_nonneg.mpr h⟩

theorem c10_return_never_negative_witness :
    (snapshotOf 12 (stateAfter 0 0.06 0 1000 12)).totalCapitalContributed
      ≤ (snapshotOf 12 (stateAfter 0 0.06 0 1000 12)).totalAmount ∧
    0 ≤ (snapshotOf 12 (stateAfter 0 0.06 0 1000 12)).investmentReturn :=
  c10_return_never_negative 0 0.06 0 1000 le_rfl le_rfl (by norm_num)
    (Or.inl rfl) _
    (by rw [projectionData_eq_map]
        exact List.mem_map.mpr ⟨1, by decide, rfl⟩)

end InvestCalc
